import Mathlib

/-!
# Verification of the PSXImager catalog round-trip engine

Shallow embedding of the core algorithms of `psxrip.cpp` and `psxbuild.cpp`
(PSXImager v2.2.6): the base64 codec used for the track listing, the last-sector
postgap classifier, the catalog LBN validator, the sector allocator, the CDDA
offset fix-up, the file sector-count computation, the CUE consistency check,
the Y2K century repair, and the catalog metadata gating.

Modelling conventions:
* C++ `uint8_t` bytes are `Nat` values `< 256`; `uint32_t` quantities are `Nat`
  (an explicit `% 2^32` is applied where a computation mixes signed and
  unsigned arithmetic and can wrap, namely the CDDA first-sector fix-up).
* `std::string` values are Lean `String`/`List Char`.
* Fallible C++ code (functions that `throw`) is modelled with `Except`/`Option`.
* Diagnostic warnings are modelled as explicit `Bool` outputs.
-/

namespace Psx

/-! ## Base64 codec

`psxrip.cpp` lines 69-112 (`base64_encode`) and `psxbuild.cpp` lines 94-116
(`base64_decode`).  The encoder walks the input bytes three at a time, emitting
four sextet characters per group; a trailing group of 1 or 2 bytes is padded
with zero bytes, `i + 1` characters are emitted and `'='` padding is appended.
The decoder walks the characters, stopping at the first `'='`, and emits three
bytes for every four characters accumulated; characters left over when fewer
than four remain are never emitted. -/

def base64Chars : List Char :=
  "ABCDEFGHIJKLMNOPQRSTUVWXYZabcdefghijklmnopqrstuvwxyz0123456789+/".toList

/-- Sextet character lookup `base64Chars[charArray4[i]]`.  The C++ index is
always `< 64`, where `getD` and subscripting agree. -/
def b64char (i : Nat) : Char := base64Chars.getD i 'A'

/-- `base64Chars.find(c)` cast to `uint8_t`: `std::string::npos` truncates
to 255 for characters outside the table. -/
def b64index (c : Char) : Nat :=
  match base64Chars.indexOf? c with
  | some i => i
  | none => 255

/-- The four sextets built from one three-byte group (`charArray4[0..3]` as
computed from `charArray3[0..2]` in `base64_encode`). -/
def encodeQuantum (b0 b1 b2 : Nat) : List Nat :=
  [(b0 &&& 252) >>> 2,
   ((b0 &&& 3) <<< 4) + ((b1 &&& 240) >>> 4),
   ((b1 &&& 15) <<< 2) + ((b2 &&& 192) >>> 6),
   b2 &&& 63]

/-- `base64_encode` from `psxrip.cpp`.  Bytes are consumed three at a time;
the loop tail (`if (i)`) pads the group with `'\0'` bytes, emits `i + 1`
characters and then `3 - i` pad characters `'='`. -/
def base64_encode : List Nat → List Char
  | b0 :: b1 :: b2 :: rest =>
      (encodeQuantum b0 b1 b2).map b64char ++ base64_encode rest
  | [b0, b1] =>
      ((encodeQuantum b0 b1 0).take 3).map b64char ++ ['=']
  | [b0] =>
      ((encodeQuantum b0 0 0).take 2).map b64char ++ ['=', '=']
  | [] => []

/-- The three bytes rebuilt from four accumulated sextets (`decodedContent`
appends in `base64_decode`); each byte is truncated by the
`static_cast<char>` to 8 bits. -/
def decodeQuantum (a0 a1 a2 a3 : Nat) : List Nat :=
  [((a0 <<< 2) ||| ((a1 &&& 48) >>> 4)) % 256,
   (((a1 &&& 15) <<< 4) ||| ((a2 &&& 60) >>> 2)) % 256,
   (((a2 &&& 3) <<< 6) ||| a3) % 256]

/-- The grouping loop of `base64_decode`: output is produced only when four
characters have been accumulated (`if (i == 4)`); a leftover group of fewer
than four characters at the end of the input produces no output at all. -/
def base64_decode_groups : List Char → List Nat
  | c0 :: c1 :: c2 :: c3 :: rest =>
      decodeQuantum (b64index c0) (b64index c1) (b64index c2) (b64index c3) ++
        base64_decode_groups rest
  | _ => []

/-- `base64_decode` from `psxbuild.cpp`: the character loop `break`s at the
first `'='`, so only the prefix before any `'='` is grouped. -/
def base64_decode (s : List Char) : List Nat :=
  base64_decode_groups (s.takeWhile (fun c => c != '='))

/-! Bit-level arithmetic facts used to reason about the quantum codec,
established by exhaustive evaluation over the byte/sextet domain. -/

set_option maxRecDepth 16384 in
lemma and252_shr2 : ∀ b : Fin 256, ((b : Nat) &&& 252) >>> 2 = (b : Nat) / 4 := by decide

set_option maxRecDepth 16384 in
lemma and3_shl4 : ∀ b : Fin 256, ((b : Nat) &&& 3) <<< 4 = (b : Nat) % 4 * 16 := by decide

set_option maxRecDepth 16384 in
lemma and240_shr4 : ∀ b : Fin 256, ((b : Nat) &&& 240) >>> 4 = (b : Nat) / 16 := by decide

set_option maxRecDepth 16384 in
lemma and15_shl2 : ∀ b : Fin 256, ((b : Nat) &&& 15) <<< 2 = (b : Nat) % 16 * 4 := by decide

set_option maxRecDepth 16384 in
lemma and192_shr6 : ∀ b : Fin 256, ((b : Nat) &&& 192) >>> 6 = (b : Nat) / 64 := by decide

set_option maxRecDepth 16384 in
lemma and63_eq_mod : ∀ b : Fin 256, (b : Nat) &&& 63 = (b : Nat) % 64 := by decide

set_option maxRecDepth 16384 in
lemma sextet_shl2 : ∀ s : Fin 64, (s : Nat) <<< 2 = (s : Nat) * 4 := by decide

set_option maxRecDepth 16384 in
lemma sextet_and48_shr4 : ∀ s : Fin 64, ((s : Nat) &&& 48) >>> 4 = (s : Nat) / 16 := by decide

set_option maxRecDepth 16384 in
lemma sextet_and15_shl4 : ∀ s : Fin 64, ((s : Nat) &&& 15) <<< 4 = (s : Nat) % 16 * 16 := by decide

set_option maxRecDepth 16384 in
lemma sextet_and60_shr2 : ∀ s : Fin 64, ((s : Nat) &&& 60) >>> 2 = (s : Nat) / 4 % 16 := by decide

set_option maxRecDepth 16384 in
lemma sextet_and3_shl6 : ∀ s : Fin 64, ((s : Nat) &&& 3) <<< 6 = (s : Nat) % 4 * 64 := by decide

set_option maxRecDepth 16384 in
lemma or_mul4 : ∀ a : Fin 64, ∀ c : Fin 4, ((a : Nat) * 4 ||| (c : Nat)) = (a : Nat) * 4 + c := by decide

set_option maxRecDepth 16384 in
lemma or_mul16 : ∀ x : Fin 16, ∀ y : Fin 16, ((x : Nat) * 16 ||| (y : Nat)) = (x : Nat) * 16 + y := by decide

set_option maxRecDepth 16384 in
lemma or_mul64 : ∀ x : Fin 4, ∀ y : Fin 64, ((x : Nat) * 64 ||| (y : Nat)) = (x : Nat) * 64 + y := by decide

set_option maxRecDepth 16384 in
lemma b64index_b64char : ∀ i : Fin 64, b64index (b64char (i : Nat)) = (i : Nat) := by decide

lemma b64char_ne_pad : ∀ i : Fin 64, b64char (i : Nat) ≠ '=' := by decide

/-- Decoding a full quantum recovers the three source bytes. -/
lemma decodeQuantum_encodeQuantum (b0 b1 b2 : Nat)
    (h0 : b0 < 256) (h1 : b1 < 256) (h2 : b2 < 256) :
    decodeQuantum ((b0 &&& 252) >>> 2) (((b0 &&& 3) <<< 4) + ((b1 &&& 240) >>> 4))
      (((b1 &&& 15) <<< 2) + ((b2 &&& 192) >>> 6)) (b2 &&& 63) = [b0, b1, b2] := by
  rw [and252_shr2 ⟨b0, h0⟩, and3_shl4 ⟨b0, h0⟩, and240_shr4 ⟨b1, h1⟩,
    and15_shl2 ⟨b1, h1⟩, and192_shr6 ⟨b2, h2⟩, and63_eq_mod ⟨b2, h2⟩]
  unfold decodeQuantum
  rw [sextet_shl2 ⟨b0 / 4, by omega⟩,
    sextet_and48_shr4 ⟨b0 % 4 * 16 + b1 / 16, by omega⟩,
    sextet_and15_shl4 ⟨b0 % 4 * 16 + b1 / 16, by omega⟩,
    sextet_and60_shr2 ⟨b1 % 16 * 4 + b2 / 64, by omega⟩,
    sextet_and3_shl6 ⟨b1 % 16 * 4 + b2 / 64, by omega⟩,
    or_mul4 ⟨b0 / 4, by omega⟩ ⟨(b0 % 4 * 16 + b1 / 16) / 16, by omega⟩,
    or_mul16 ⟨(b0 % 4 * 16 + b1 / 16) % 16, by omega⟩ ⟨(b1 % 16 * 4 + b2 / 64) / 4 % 16, by omega⟩,
    or_mul64 ⟨(b1 % 16 * 4 + b2 / 64) % 4, by omega⟩ ⟨b2 % 64, by omega⟩]
  simp only [List.cons.injEq, and_true]
  refine ⟨?_, ?_, ?_⟩ <;> omega

lemma takeWhile_ne_pad_quad (c0 c1 c2 c3 : Char) (l : List Char)
    (h0 : (c0 != '=') = true) (h1 : (c1 != '=') = true)
    (h2 : (c2 != '=') = true) (h3 : (c3 != '=') = true) :
    List.takeWhile (fun c => c != '=') (c0 :: c1 :: c2 :: c3 :: l)
      = c0 :: c1 :: c2 :: c3 :: List.takeWhile (fun c => c != '=') l := by
  simp [List.takeWhile_cons, h0, h1, h2, h3]

/-- On inputs whose length is a multiple of three the encoder emits no
padding and the decoder inverts it exactly.  (This is the healthy part of the
round trip; the claim fails precisely on the remaining lengths, see
`base64_roundtrip_drops_partial_tail`.) -/
theorem base64_roundtrip_of_mod3 :
    ∀ s : List Nat, (∀ b ∈ s, b < 256) → s.length % 3 = 0 →
      base64_decode (base64_encode s) = s
  | [], _, _ => rfl
  | [_], _, hlen => by simp at hlen
  | [_, _], _, hlen => by simp at hlen
  | b0 :: b1 :: b2 :: rest, hb, hlen => by
    have hrest : rest.length % 3 = 0 := by
      simp only [List.length_cons] at hlen; omega
    have h0 : b0 < 256 := hb b0 (by simp)
    have h1 : b1 < 256 := hb b1 (by simp)
    have h2 : b2 < 256 := hb b2 (by simp)
    have hbrest : ∀ b ∈ rest, b < 256 := fun b hbmem => hb b (by simp [hbmem])
    have henc : base64_encode (b0 :: b1 :: b2 :: rest)
        = (encodeQuantum b0 b1 b2).map b64char ++ base64_encode rest := rfl
    have hne : ∀ i : Nat, i < 64 → (b64char i != '=') = true := by
      intro i hi
      simpa using b64char_ne_pad ⟨i, hi⟩
    have hq0 : (b0 &&& 252) >>> 2 < 64 := by
      have := and252_shr2 ⟨b0, h0⟩; simp only at this; omega
    have hq1 : ((b0 &&& 3) <<< 4) + ((b1 &&& 240) >>> 4) < 64 := by
      have ha := and3_shl4 ⟨b0, h0⟩; have hc := and240_shr4 ⟨b1, h1⟩
      simp only at ha hc; omega
    have hq2 : ((b1 &&& 15) <<< 2) + ((b2 &&& 192) >>> 6) < 64 := by
      have ha := and15_shl2 ⟨b1, h1⟩; have hc := and192_shr6 ⟨b2, h2⟩
      simp only at ha hc; omega
    have hq3 : b2 &&& 63 < 64 := by
      have := and63_eq_mod ⟨b2, h2⟩; simp only at this; omega
    rw [henc]
    unfold base64_decode
    rw [show (encodeQuantum b0 b1 b2).map b64char
        = [b64char ((b0 &&& 252) >>> 2),
           b64char (((b0 &&& 3) <<< 4) + ((b1 &&& 240) >>> 4)),
           b64char (((b1 &&& 15) <<< 2) + ((b2 &&& 192) >>> 6)),
           b64char (b2 &&& 63)] from rfl]
    rw [List.cons_append, List.cons_append, List.cons_append, List.cons_append,
      List.nil_append]
    rw [takeWhile_ne_pad_quad _ _ _ _ _ (hne _ hq0) (hne _ hq1) (hne _ hq2) (hne _ hq3)]
    show decodeQuantum (b64index (b64char ((b0 &&& 252) >>> 2))) _ _ _ ++
        base64_decode_groups _ = _
    rw [b64index_b64char ⟨_, hq0⟩, b64index_b64char ⟨_, hq1⟩,
      b64index_b64char ⟨_, hq2⟩, b64index_b64char ⟨_, hq3⟩]
    rw [decodeQuantum_encodeQuantum b0 b1 b2 h0 h1 h2]
    have ih := base64_roundtrip_of_mod3 rest hbrest hrest
    unfold base64_decode at ih
    rw [ih]
    rfl

/-- C1: the builder's `base64_decode` silently discards any final partial
quantum: decoding the encoding of the two-byte CSV fragment `"1\n"`
(bytes `[49, 10]`) yields the empty string, not the original.  The track
listing therefore is not always recoverable from the catalog: the last
`length % 3` bytes of the CSV are lost whenever its length is not a multiple
of three, contradicting the exact-reconstruction claim. -/
theorem base64_decode_encode_drops_partial_tail :
    base64_decode (base64_encode [49, 10]) = [] ∧ ([] : List Nat) ≠ [49, 10] := by
  constructor
  · rfl
  · decide

/-! ## Fixed sector layout and LBN validation

`psxbuild.cpp`: `MAX_ISO_SECTORS` (line 91), `checkLBN` (lines 660-673) and
the fixed layout constants computed in `main` (lines 1530-1535). -/

def MAX_ISO_SECTORS : Nat := 74 * 60 * 75

def ISO_PVD_SECTOR : Nat := 16

def ISO_EVD_SECTOR : Nat := 17

def pvdSector : Nat := ISO_PVD_SECTOR

def evdSector : Nat := pvdSector + 1

def pathTableStartSector : Nat := evdSector + 1

def numPathTableSectors : Nat := 1

def rootDirStartSector : Nat := pathTableStartSector + numPathTableSectors * 4

/-- `std::from_chars` on a decimal string (`str_to_num`): succeeds exactly on
nonempty all-digit strings, consuming the whole string. -/
def strToNum (s : String) : Option Nat :=
  if s.data ≠ [] ∧ s.data.all (fun c => c.isDigit) then
    some (s.data.foldl (fun acc c => acc * 10 + (c.toNat - 48)) 0)
  else none

/-- `checkLBN` from `psxbuild.cpp`: an empty attribute yields LBN 0
("don't care"); otherwise the parsed LBN must satisfy
`ISO_EVD_SECTOR < lbn < MAX_ISO_SECTORS`, else a fatal error is thrown. -/
def checkLBN (s : String) : Except String Nat :=
  if s.isEmpty then Except.ok 0
  else
    match strToNum s with
    | some lbn =>
        if lbn ≤ ISO_EVD_SECTOR ∨ MAX_ISO_SECTORS ≤ lbn then
          Except.error "Start LBN is outside the valid range"
        else Except.ok lbn
    | none => Except.error "Invalid start LBN"

/-! ## Filesystem tree and the default sector allocator

`psxbuild.cpp`: `FSNode`/`FileNode`/`DirNode` (lines 365-483), pre-order
`FSNode::traverse` (lines 487-494) and the `AllocSectors` visitor
(lines 1101-1191).  Only the fields the allocator reads are modelled.
`uint32_t` cursors and sector numbers are modelled as `Nat`. -/

structure FSNodeInfo where
  requestedStartSector : Nat
  numSectors : Nat
  isAudio : Bool
deriving DecidableEq

/-- A directory tree node: its allocator-relevant data and its children in
catalog insertion order. -/
inductive FSTree where
  | node : FSNodeInfo → List FSTree → FSTree

mutual

/-- The node sequence produced by the pre-order `FSNode::traverse`:
the node itself, then each child subtree in order. -/
def preorder : FSTree → List FSNodeInfo
  | FSTree.node i cs => i :: preorderList cs

def preorderList : List FSTree → List FSNodeInfo
  | [] => []
  | t :: ts => preorder t ++ preorderList ts

end

/-- One step of `AllocSectors::visitNode` (default policy): given the current
cursor, returns the `firstSector` assigned to the node and whether the
"will start at sector ... instead of ..." warning was printed.  A nonzero
`requestedStartSector` of a non-audio node is heeded unless it lies strictly
before the cursor, in which case the node is placed at the cursor with a
warning.  Audio nodes and nodes without a request are placed at the cursor. -/
def visitNode (cursor : Nat) (n : FSNodeInfo) : Nat × Bool :=
  if n.requestedStartSector ≠ 0 ∧ n.isAudio = false then
    if n.requestedStartSector < cursor then (cursor, true)
    else (n.requestedStartSector, false)
  else (cursor, false)

/-- `currentSector = node.firstSector + node.numSectors`, executed after
every visit. -/
def visitNodeCursor (cursor : Nat) (n : FSNodeInfo) : Nat :=
  (visitNode cursor n).1 + n.numSectors

/-- The default allocation pass: the `AllocSectors` visitor threaded through a
node sequence, recording for every node its `firstSector` and warning flag,
and returning the final cursor (`AllocSectors::getCurrentSector`). -/
def allocNodes : Nat → List FSNodeInfo → List (FSNodeInfo × Nat × Bool) × Nat
  | cursor, [] => ([], cursor)
  | cursor, n :: ns =>
      let fw := visitNode cursor n
      let rest := allocNodes (visitNodeCursor cursor n) ns
      ((n, fw.1, fw.2) :: rest.1, rest.2)

/-- `cat.root->traverse(alloc)` followed by `alloc.getCurrentSector()`:
default-policy allocation over the whole tree in pre-order. -/
def allocTree (start : Nat) (t : FSTree) : List (FSNodeInfo × Nat × Bool) × Nat :=
  allocNodes start (preorder t)

lemma visitNode_fs_ge (cursor : Nat) (n : FSNodeInfo) : cursor ≤ (visitNode cursor n).1 := by
  unfold visitNode
  split
  · split
    · exact le_refl cursor
    · simp only
      omega
  · exact le_refl cursor

lemma visitNodeCursor_ge (cursor : Nat) (n : FSNodeInfo) : cursor ≤ visitNodeCursor cursor n := by
  unfold visitNodeCursor
  have := visitNode_fs_ge cursor n
  omega

lemma allocNodes_entry_ge (ns : List FSNodeInfo) :
    ∀ cursor : Nat, ∀ e ∈ (allocNodes cursor ns).1, cursor ≤ e.2.1 := by
  induction ns with
  | nil => intro cursor e he; simp [allocNodes] at he
  | cons n ns ih =>
      intro cursor e he
      simp only [allocNodes, List.mem_cons] at he
      rcases he with he | he
      · subst he
        exact visitNode_fs_ge cursor n
      · have h1 := ih (visitNodeCursor cursor n) e he
        have h2 := visitNodeCursor_ge cursor n
        omega

lemma allocNodes_pairwise (ns : List FSNodeInfo) :
    ∀ cursor : Nat,
      ((allocNodes cursor ns).1).Pairwise
        (fun a b => a.2.1 + a.1.numSectors ≤ b.2.1) := by
  induction ns with
  | nil => intro cursor; simp [allocNodes]
  | cons n ns ih =>
      intro cursor
      simp only [allocNodes]
      refine List.Pairwise.cons ?_ (ih (visitNodeCursor cursor n))
      intro e he
      have := allocNodes_entry_ge ns (visitNodeCursor cursor n) e he
      unfold visitNodeCursor at this
      simp only
      omega

/-- C3: allocator monotonicity.  After the default allocation pass, for any
two nodes A before B in pre-order, `firstSector(A) + sectorCount(A) ≤
firstSector(B)`.  The inequality holds for *all* ordered pairs — also in the
exceptional case the claim allows (B requested beyond the cursor), where B is
placed even later. -/
theorem default_alloc_monotone (t : FSTree) :
    ((allocTree rootDirStartSector t).1).Pairwise
      (fun a b => a.2.1 + a.1.numSectors ≤ b.2.1) :=
  allocNodes_pairwise (preorder t) rootDirStartSector

/-- C4, counterexample to the claim as stated: a non-audio node whose
requested LBN is *equal* to the cursor does not produce a warning — the
request is heeded silently (`node.requestedStartSector < currentSector` is
strict in the code, while the claim demands a warning already at `≤`). -/
theorem alloc_requested_eq_cursor_no_warning :
    ¬ (∀ (cursor : Nat) (n : FSNodeInfo),
        n.requestedStartSector ≠ 0 → n.isAudio = false →
        n.requestedStartSector ≤ cursor →
        (visitNode cursor n).2 = true ∧ (visitNode cursor n).1 = cursor ∧
          visitNodeCursor cursor n = cursor + n.numSectors) := by
  intro h
  have := (h 22 ⟨22, 1, false⟩ (by decide) rfl (le_refl 22)).1
  simp [visitNode] at this

/-- C4, amended: for a non-audio node with a nonzero requested LBN that is at
most the cursor, the allocator does not abort: the node is placed at the
cursor (at equality this coincides with the request being heeded), the cursor
advances by the node's sector count, and the warning is emitted **iff** the
requested LBN is strictly below the cursor. -/
theorem alloc_requested_le_cursor_behavior (cursor : Nat) (n : FSNodeInfo)
    (hreq : n.requestedStartSector ≠ 0) (haud : n.isAudio = false)
    (hle : n.requestedStartSector ≤ cursor) :
    (visitNode cursor n).1 = cursor ∧
    visitNodeCursor cursor n = cursor + n.numSectors ∧
    ((visitNode cursor n).2 = true ↔ n.requestedStartSector < cursor) := by
  rcases Nat.lt_or_ge n.requestedStartSector cursor with hlt | hge
  · refine ⟨?_, ?_, ?_⟩ <;> simp [visitNode, visitNodeCursor, hreq, haud, hlt]
  · have heq : n.requestedStartSector = cursor := by omega
    refine ⟨?_, ?_, ?_⟩ <;> simp [visitNode, visitNodeCursor, hreq, haud, heq]

theorem alloc_requested_le_cursor_behavior_witness :
    (visitNode 23 ⟨22, 5, false⟩).1 = 23 ∧
    visitNodeCursor 23 ⟨22, 5, false⟩ = 23 + 5 ∧
    ((visitNode 23 ⟨22, 5, false⟩).2 = true ↔ 22 < 23) :=
  alloc_requested_le_cursor_behavior 23 ⟨22, 5, false⟩ (by decide) rfl (by decide)

/-- C7, counterexample to the claim as stated: the default allocator enforces
no upper bound on assigned LBNs.  With two large files and no requested LBNs,
the second file is placed at sector 333022 ≥ 333000 (`MAX_ISO_SECTORS`); the
builder only prints a size warning later, after allocation. -/
theorem alloc_exceeds_max_iso_sectors :
    ∃ e ∈ (allocNodes rootDirStartSector
        [⟨0, 333000, false⟩, ⟨0, 1, false⟩]).1,
      MAX_ISO_SECTORS ≤ e.2.1 := by decide

/-- C7, amended: every LBN the default allocator assigns is at least 22
(`rootDirStartSector`, the start cursor), and every *requested* LBN accepted
by `checkLBN` from the catalog is either 0 (unset) or lies strictly between
`ISO_EVD_SECTOR = 17` and `MAX_ISO_SECTORS = 333000`.  No upper bound is
enforced on assigned LBNs at allocation time. -/
theorem alloc_lower_bound_and_checkLBN_range (t : FSTree)
    (e : FSNodeInfo × Nat × Bool) (s : String) (lbn : Nat)
    (he : e ∈ (allocTree rootDirStartSector t).1)
    (hs : checkLBN s = Except.ok lbn) :
    rootDirStartSector ≤ e.2.1 ∧
      (lbn = 0 ∨ (ISO_EVD_SECTOR < lbn ∧ lbn < MAX_ISO_SECTORS)) := by
  refine ⟨allocNodes_entry_ge (preorder t) rootDirStartSector e he, ?_⟩
  unfold checkLBN at hs
  split at hs
  · cases hs
    exact Or.inl rfl
  · split at hs
    · split at hs
      · cases hs
      · cases hs
        rename_i hrange
        right
        push_neg at hrange
        exact hrange
    · cases hs

theorem alloc_lower_bound_and_checkLBN_range_witness :
    rootDirStartSector ≤ ((⟨0, 1, false⟩ : FSNodeInfo), 22, false).2.1 ∧
      ((100 : Nat) = 0 ∨ (ISO_EVD_SECTOR < 100 ∧ 100 < MAX_ISO_SECTORS)) :=
  alloc_lower_bound_and_checkLBN_range (FSTree.node ⟨0, 1, false⟩ [])
    (⟨0, 1, false⟩, 22, false) "100" 100 (by decide) (by rfl)

/-! ## CDDA offset fix-up

`psxbuild.cpp` `main` lines 1561-1570: after allocation,
`volumeSize = alloc.getCurrentSector() + 150` (postgap) and
`track1SectorCountOffset = volumeSize - track1SectorCount`.
`MakeDirectories::visit` (line 1243) then assigns every audio-reference
node `firstSector = requestedStartSector + track1SectorCountOffset` before
emitting its directory record; the `uint32_t`/`int` mix wraps modulo 2^32. -/

def track1SectorCountOffset (endOfTrack1Cursor track1SectorCount : Nat) : Int :=
  ((endOfTrack1Cursor : Int) + 150) - (track1SectorCount : Int)

/-- The `firstSector` written into an audio-reference directory record by
`MakeDirectories::visit`. -/
def audioRecordFirstSector (requestedStartSector : Nat) (off : Int) : Nat :=
  (((requestedStartSector : Int) + off) % (2 ^ 32)).toNat

/-- C2: for every audio-reference node with catalog `@LBN` L, letting T be the
original track-1 sector count and T' the rebuilt one (allocation end cursor
plus 150 postgap sectors), the firstSector written into the node's directory
record equals `L + (T' − T)`, provided that value fits in a `uint32_t`. -/
theorem cdda_firstSector_offset_correct (t : FSTree) (T L : Nat) (n : FSNodeInfo)
    (hmem : n ∈ preorder t) (haudio : n.isAudio = true)
    (hL : n.requestedStartSector = L)
    (hpos : 0 ≤ (L : Int) + ((((allocTree rootDirStartSector t).2 + 150 : Nat) : Int) - T))
    (hlt : (L : Int) + ((((allocTree rootDirStartSector t).2 + 150 : Nat) : Int) - T) < 2 ^ 32) :
    ((audioRecordFirstSector n.requestedStartSector
        (track1SectorCountOffset (allocTree rootDirStartSector t).2 T) : Nat) : Int)
      = (L : Int) + ((((allocTree rootDirStartSector t).2 + 150 : Nat) : Int) - T) := by
  unfold audioRecordFirstSector track1SectorCountOffset
  rw [hL]
  have harith : (L : Int) + (((allocTree rootDirStartSector t).2 : Int) + 150 - T)
      = (L : Int) + ((((allocTree rootDirStartSector t).2 + 150 : Nat) : Int) - T) := by
    push_cast
    ring
  rw [harith, Int.emod_eq_of_lt hpos hlt, Int.toNat_of_nonneg hpos]

theorem cdda_firstSector_offset_correct_witness :
    ((audioRecordFirstSector
        ((⟨70000, 0, true⟩ : FSNodeInfo)).requestedStartSector
        (track1SectorCountOffset
          (allocTree rootDirStartSector
            (FSTree.node ⟨0, 1, false⟩ [FSTree.node ⟨70000, 0, true⟩ []])).2 100) : Nat) : Int)
      = (70000 : Int) +
        ((((allocTree rootDirStartSector
            (FSTree.node ⟨0, 1, false⟩ [FSTree.node ⟨70000, 0, true⟩ []])).2 + 150 : Nat) : Int)
          - 100) :=
  cdda_firstSector_offset_correct
    (FSTree.node ⟨0, 1, false⟩ [FSTree.node ⟨70000, 0, true⟩ []]) 100 70000
    ⟨70000, 0, true⟩ (by decide) rfl rfl (by decide) (by decide)

/-! ## File extent size

`psxbuild.cpp` `FileNode::FileNode` (lines 420-433): the number of sectors of
a file extent from the host file size.  `ISO_BLOCKSIZE = 2048`,
`M2RAW_SECTOR_SIZE = 2336`. -/

def ISO_BLOCKSIZE : Nat := 2048

def M2RAW_SECTOR_SIZE : Nat := 2336

/-- `numSectors` as computed by the `FileNode` constructor:
`(size + blockSize - 1) / blockSize` with the Form-2 block size for xafiles,
then forced to 1 for empty non-audio files. -/
def fileNodeNumSectors (size : Nat) (isForm2 isAudio : Bool) : Nat :=
  let blockSize := if isForm2 then M2RAW_SECTOR_SIZE else ISO_BLOCKSIZE
  let n := (size + blockSize - 1) / blockSize
  if n = 0 ∧ isAudio = false then 1 else n

/-- C5: a file's sector count is `⌈sizeBytes / blockSize⌉` with block size
2336 for a Form 2 (xa) file and 2048 otherwise, except that an empty
non-audio file occupies exactly one sector (an empty audio placeholder
occupies zero). -/
theorem fileNode_numSectors_ceilDiv (size : Nat) (isForm2 isAudio : Bool) :
    fileNodeNumSectors size isForm2 isAudio
      = if size = 0 ∧ isAudio = false then 1
        else size ⌈/⌉ (if isForm2 then M2RAW_SECTOR_SIZE else ISO_BLOCKSIZE) := by
  unfold fileNodeNumSectors
  rw [Nat.ceilDiv_eq_add_pred_div]
  cases isForm2 <;> cases isAudio <;>
    simp only [Bool.false_eq_true, Bool.true_eq_false, if_true, if_false,
      ite_true, ite_false, and_true, and_false, ISO_BLOCKSIZE, M2RAW_SECTOR_SIZE] <;>
    (try split_ifs) <;> omega

/-! ## CUE consistency check

`psxrip.cpp` `main` lines 685-704: the ripper counts the lines of the CUE
text that begin (after optional whitespace) with the keywords `FILE` and
`TRACK` (case-insensitive, word-bounded `std::regex` matches anchored at the
start of a line) and accepts only two count combinations. -/

/-- The FILE/TRACK count consistency decision: one FILE with at least one
TRACK is a single-bin image, N > 1 FILEs with exactly N TRACKs is a multi-bin
image (result `true`), and every other combination throws a fatal error. -/
def cueConsistency (fileCount trackCount : Nat) : Except String Bool :=
  if fileCount = 1 ∧ 1 ≤ trackCount then Except.ok false
  else if 1 < fileCount ∧ fileCount = trackCount then Except.ok true
  else Except.error "Error: The .cue file is inconsistent. FILE and TRACK counts do not align."

/-- C8: the ripper accepts exactly one FILE line with at least one TRACK line
as single-bin, N > 1 FILE lines with exactly N TRACK lines as multi-bin, and
aborts with a fatal error for every other FILE/TRACK count combination. -/
theorem cue_consistency_spec (f t : Nat) :
    (cueConsistency f t = Except.ok false ↔ (f = 1 ∧ 1 ≤ t)) ∧
    (cueConsistency f t = Except.ok true ↔ (1 < f ∧ f = t)) ∧
    ((∃ msg, cueConsistency f t = Except.error msg) ↔
      ¬((f = 1 ∧ 1 ≤ t) ∨ (1 < f ∧ f = t))) := by
  unfold cueConsistency
  by_cases h1 : f = 1 ∧ 1 ≤ t
  · rw [if_pos h1]
    have h2 : ¬(1 < f ∧ f = t) := by omega
    refine ⟨by simp [h1], ?_, ?_⟩
    · simp only [Except.ok.injEq]
      constructor
      · intro hb; cases hb
      · intro hc; exact absurd hc h2
    · constructor
      · intro ⟨msg, hmsg⟩; cases hmsg
      · intro hc; exact absurd (Or.inl h1) hc
  · rw [if_neg h1]
    by_cases h2 : 1 < f ∧ f = t
    · rw [if_pos h2]
      refine ⟨?_, ⟨fun _ => h2, fun _ => rfl⟩, ?_⟩
      · simp only [Except.ok.injEq]
        constructor
        · intro hb; cases hb
        · intro hc; exact absurd hc h1
      · constructor
        · intro ⟨msg, hmsg⟩; cases hmsg
        · intro hc; exact absurd (Or.inr h2) hc
    · rw [if_neg h2]
      refine ⟨?_, ?_, ?_⟩
      · constructor
        · intro hb; cases hb
        · intro hc; exact absurd hc h1
      · constructor
        · intro hb; cases hb
        · intro hc; exact absurd hc h2
      · constructor
        · intro _; rintro (hc | hc)
          · exact h1 hc
          · exact h2 hc
        · intro _; exact ⟨_, rfl⟩

/-! ## Y2K century repair in the ripper

`psxrip.cpp` `print_ltime` lines 140-148: when the `fix` option is on, the
century digits of a PVD long-format date are rewritten.  The inputs are the
two-character century string `{l.lt_year[0], l.lt_year[1]}` together with the
`std::stoi` values of the two-digit year and day strings. -/

/-- The century string written to the catalog by `print_ltime`. -/
def print_ltime_century (fixAllDates : Bool) (century : String)
    (yearVal dayVal : Nat) : String :=
  if fixAllDates = true then
    if (century = "00" ∨ century = "19") ∧ 1 ≤ dayVal then
      if 70 ≤ yearVal then "19" else "20"
    else century
  else century

/-- C9, counterexample to the claim as stated: the rewrite is guarded by
`std::stoi(day_str) >= 1`, so a date whose day field reads `"00"` (e.g. the
all-zero "not specified" ISO date) keeps its `"00"` century even with `fix`
on, where the claim demands `"20"`. -/
theorem fix_century_zero_day_not_rewritten :
    ¬ (∀ (century : String) (yearVal dayVal : Nat),
        (century = "00" ∨ century = "19") →
        print_ltime_century true century yearVal dayVal
          = (if 70 ≤ yearVal then "19" else "20")) := by
  intro h
  have h0 := h "00" 0 0 (Or.inl rfl)
  have h1 : print_ltime_century true "00" 0 0 = "00" := by decide
  have h2 : (if 70 ≤ (0 : Nat) then ("19" : String) else "20") = "20" := by norm_num
  rw [h1, h2] at h0
  exact absurd h0 (by decide)

/-- C9, amended: with `fix` on, a PVD long-format date whose century digits
read `"00"` or `"19"` *and whose day field is at least 1* is written with the
century rewritten to `"19"` when the two-digit year is ≥ 70 and to `"20"`
otherwise; dates with a zero day field are left unchanged. -/
theorem fix_century_rewrite (century : String) (yearVal dayVal : Nat)
    (hc : century = "00" ∨ century = "19") (hd : 1 ≤ dayVal) :
    print_ltime_century true century yearVal dayVal
      = (if 70 ≤ yearVal then "19" else "20") := by
  unfold print_ltime_century
  rw [if_pos rfl, if_pos ⟨hc, hd⟩]

theorem fix_century_rewrite_witness :
    print_ltime_century true "00" 85 1 = (if 70 ≤ (85 : Nat) then "19" else "20") :=
  fix_century_rewrite "00" 85 1 (Or.inl rfl) (by decide)

/-! ## Catalog metadata gating

`psxbuild.cpp` `parseDir` lines 889-990: the `file`, `xafile`, `cddafile` and
`dir` line regexes capture every attribute in an optional group (an absent
group captures the empty string).  The metadata block is applied only when
capture groups 3-6 — GID, UID, ATR (ATRS for `dir`) and the fourth group
(DATE for files, ATRP for `dir`) — are all nonempty; otherwise every metadata
attribute of the line is silently ignored and the node keeps the zero/empty
defaults reset at the top of the loop.  When the gate passes, the remaining
groups go through `std::stoi`, which throws (a fatal error) on an empty
string; this is modelled by `Option`. -/

structure FileMeta where
  nodeGID : Nat
  nodeUID : Nat
  nodeATR : Nat
  nodeDate : String
  nodeTimezone : Nat
  nodeSize : Nat
  nodeHidden : Bool
  nodeY2kbug : Nat
  nodeEDC : Bool
deriving DecidableEq

def defaultFileMeta : FileMeta :=
  ⟨0, 0, 0, "", 0, 0, false, 0, false⟩

/-- Metadata of a `file`/`xafile`/`cddafile` catalog line.  `hasZeroEDC` is
true for the `xafile` grammar, whose regex has the extra `ZEROEDC` group 11;
the other two constructors pass `nodeEDC = false`. -/
def parseFileLineMeta (hasZeroEDC : Bool)
    (m3 m4 m5 m6 m7 m8 m9 m10 m11 : String) : Option FileMeta :=
  if ¬m3.isEmpty ∧ ¬m4.isEmpty ∧ ¬m5.isEmpty ∧ ¬m6.isEmpty then
    match strToNum m3, strToNum m4, strToNum m5, strToNum m7, strToNum m8,
        strToNum m9, strToNum m10,
        (if hasZeroEDC then strToNum m11 else some 0) with
    | some gid, some uid, some atr, some tz, some sz, some hid, some y2k, some edc =>
        some ⟨gid, uid, atr, m6, tz, sz, hid ≠ 0, y2k, edc ≠ 0⟩
    | _, _, _, _, _, _, _, _ => none
  else some defaultFileMeta

structure DirMeta where
  nodeGID : Nat
  nodeUID : Nat
  nodeATR : Nat
  nodeATRP : Nat
  nodeDate : String
  nodeDateParent : String
  nodeTimezone : Nat
  nodeTimezoneParent : Nat
  nodeHidden : Bool
  nodeY2kbug : Nat
deriving DecidableEq

def defaultDirMeta : DirMeta :=
  ⟨0, 0, 0, 0, "", "", 0, 0, false, 0⟩

/-- Metadata of a `dir` catalog line (groups 3-12: GID, UID, ATRS, ATRP,
DATES, DATEP, TIMEZONES, TIMEZONEP, HIDDEN, Y2KBUG; DATES/DATEP stay
strings). -/
def parseDirLineMeta (m3 m4 m5 m6 m7 m8 m9 m10 m11 m12 : String) : Option DirMeta :=
  if ¬m3.isEmpty ∧ ¬m4.isEmpty ∧ ¬m5.isEmpty ∧ ¬m6.isEmpty then
    match strToNum m3, strToNum m4, strToNum m5, strToNum m6, strToNum m9,
        strToNum m10, strToNum m11, strToNum m12 with
    | some gid, some uid, some atrs, some atrp, some tzs, some tzp, some hid, some y2k =>
        some ⟨gid, uid, atrs, atrp, m7, m8, tzs, tzp, hid ≠ 0, y2k⟩
    | _, _, _, _, _, _, _, _ => none
  else some defaultDirMeta

/-- C10: if any of the gate groups GID, UID, ATR(S) or the fourth group
(DATE for file-kind lines, ATRP for `dir` lines) is absent from the line,
every metadata attribute is silently ignored: parsing succeeds (no error, no
warning) and the node is built with the zero/empty defaults, for all four
line kinds. -/
theorem metadata_gating (hasZeroEDC : Bool)
    (m3 m4 m5 m6 m7 m8 m9 m10 m11 m12 : String)
    (hmiss : m3.isEmpty ∨ m4.isEmpty ∨ m5.isEmpty ∨ m6.isEmpty) :
    parseFileLineMeta hasZeroEDC m3 m4 m5 m6 m7 m8 m9 m10 m11
        = some defaultFileMeta ∧
    parseDirLineMeta m3 m4 m5 m6 m7 m8 m9 m10 m11 m12 = some defaultDirMeta := by
  have hgate : ¬(¬m3.isEmpty ∧ ¬m4.isEmpty ∧ ¬m5.isEmpty ∧ ¬m6.isEmpty) := by
    simp only [Bool.not_eq_true]
    rcases hmiss with h | h | h | h <;> simp [h]
  constructor
  · unfold parseFileLineMeta
    rw [if_neg hgate]
  · unfold parseDirLineMeta
    rw [if_neg hgate]

theorem metadata_gating_witness :
    parseFileLineMeta true "" "5" "5" "5" "5" "5" "5" "5" "5"
        = some defaultFileMeta ∧
    parseDirLineMeta "" "5" "5" "5" "5" "5" "5" "5" "5" "5" = some defaultDirMeta :=
  metadata_gating true "" "5" "5" "5" "5" "5" "5" "5" "5" "5" (Or.inl (by decide))

/-! ## Postgap type classification

`psxrip.cpp` `main` lines 872-908: the last data-track sector (2352 raw
bytes) is rendered as a 4704-character uppercase hex string and matched, in
order, against three anchored regexes:

* type 1: `^00FFFFFFFFFFFFFFFFFFFF00.{8}0000000000000000(00)*$`
* type 2: `^00FFFFFFFFFFFFFFFFFFFF00.{8}0000200000002000(00)*$`
* type 3: `^00FFFFFFFFFFFFFFFFFFFF00.{8}0000200000002000(00)*([0-9A-F]){8}$`

Every byte maps to exactly two hex characters, so the patterns translate
byte-wise: 12 sync bytes, 4 arbitrary header bytes (`.{8}`), then the literal
8-byte block, then zero bytes.  For type 3, the string has fixed length, so
the `(00)*` group must cover exactly the 2324 payload bytes and
`([0-9A-F]){8}` the last 4 bytes (any byte value: its hex digits are always
in `[0-9A-F]`); `matchType3_zeros_split` below establishes this reading of
the existential regex split.  If no pattern matches (type 0), the raw sector
is written verbatim to `Last_sector.bin`. -/

def syncPattern : List Nat := [0, 255, 255, 255, 255, 255, 255, 255, 255, 255, 255, 0]

def form2Subheader : List Nat := [0, 0, 32, 0, 0, 0, 32, 0]

/-- Pattern `postgapType1`: sync, any header, then subheader and everything
after it zero. -/
def MatchType1 (s : List Nat) : Prop :=
  s.length = 2352 ∧ s.take 12 = syncPattern ∧ ∀ b ∈ s.drop 16, b = 0

/-- Pattern `postgapType2`: sync, any header, the Form 2 subheader block, then
all zero (payload and EDC). -/
def MatchType2 (s : List Nat) : Prop :=
  s.length = 2352 ∧ s.take 12 = syncPattern ∧ (s.drop 16).take 8 = form2Subheader ∧
  ∀ b ∈ s.drop 24, b = 0

/-- Pattern `postgapType3`: sync, any header, the Form 2 subheader block, zero
payload, arbitrary last four bytes. -/
def MatchType3 (s : List Nat) : Prop :=
  s.length = 2352 ∧ s.take 12 = syncPattern ∧ (s.drop 16).take 8 = form2Subheader ∧
  ∀ b ∈ (s.drop 24).take 2324, b = 0

instance (s : List Nat) : Decidable (MatchType1 s) := by unfold MatchType1; infer_instance

instance (s : List Nat) : Decidable (MatchType2 s) := by unfold MatchType2; infer_instance

instance (s : List Nat) : Decidable (MatchType3 s) := by unfold MatchType3; infer_instance

/-- The type-3 regex tail `(00)*([0-9A-F]){8}$`: on a fixed-length sector the
existential split (some zero block followed by some four bytes) is equivalent
to the first 2324 bytes after the subheader being zero. -/
lemma matchType3_zeros_split (s : List Nat) (h : s.length = 2352) :
    (∃ zeros tail, s.drop 24 = zeros ++ tail ∧ (∀ b ∈ zeros, b = 0) ∧
        tail.length = 4) ↔
      ∀ b ∈ (s.drop 24).take 2324, b = 0 := by
  constructor
  · rintro ⟨zeros, tail, hsplit, hz, hlen4⟩ b hb
    have hlen : (s.drop 24).length = zeros.length + tail.length := by
      rw [hsplit, List.length_append]
    rw [List.length_drop, h, hlen4] at hlen
    have hzl : zeros.length = 2324 := by omega
    rw [hsplit] at hb
    have htk : (zeros ++ tail).take 2324 = zeros := by
      rw [← hzl, List.take_left]
    rw [htk] at hb
    exact hz b hb
  · intro hz
    refine ⟨(s.drop 24).take 2324, (s.drop 24).drop 2324,
      (List.take_append_drop _ _).symm, hz, ?_⟩
    rw [List.length_drop, List.length_drop, h]

/-- The ordered classification `track1PostgapType` with 0 as the fallback. -/
def classifyPostgap (s : List Nat) : Nat :=
  if MatchType1 s then 1 else if MatchType2 s then 2 else if MatchType3 s then 3 else 0

/-- The `Last_sector.bin` dump: the raw sector is written verbatim exactly in
the type-0 fallback branch. -/
def lastSectorDump (s : List Nat) : Option (List Nat) :=
  if classifyPostgap s = 0 then some s else none

/-- C6: characterization of the postgap classifier on a 2352-byte sector.
Type 1 is sync + header only with everything after byte 16 zero; type 2 marks
Form 2 twice in the subheader with zero payload and EDC; type 3 is as type 2
but with a nonzero EDC in the last four bytes (this emerges from the match
order: the type-3 pattern also covers type 2, but type 2 is tested first);
anything else is type 0, and exactly then the raw sector is dumped verbatim
as `Last_sector.bin`. -/
theorem postgap_classification_spec (s : List Nat) (h : s.length = 2352) :
    (classifyPostgap s = 1 ↔
      (s.take 12 = syncPattern ∧ ∀ b ∈ s.drop 16, b = 0)) ∧
    (classifyPostgap s = 2 ↔
      (s.take 12 = syncPattern ∧ (s.drop 16).take 8 = form2Subheader ∧
        ∀ b ∈ s.drop 24, b = 0)) ∧
    (classifyPostgap s = 3 ↔
      (s.take 12 = syncPattern ∧ (s.drop 16).take 8 = form2Subheader ∧
        (∀ b ∈ (s.drop 24).take 2324, b = 0) ∧ ¬(∀ b ∈ s.drop 2348, b = 0))) ∧
    (lastSectorDump s = some s ↔ classifyPostgap s = 0) := by
  have hsub32 : (s.drop 16).take 8 = form2Subheader → ¬(∀ b ∈ s.drop 16, b = 0) := by
    intro hsubh hall
    have h32 : (32 : Nat) ∈ (s.drop 16).take 8 := by rw [hsubh]; decide
    exact absurd (hall 32 (List.take_subset _ _ h32)) (by decide)
  have hdropdrop : (s.drop 24).drop 2324 = s.drop 2348 := by
    rw [List.drop_drop]
  have hM2_of : (∀ b ∈ (s.drop 24).take 2324, b = 0) → (∀ b ∈ s.drop 2348, b = 0) →
      ∀ b ∈ s.drop 24, b = 0 := by
    intro hzeros hedc b hb
    rw [← List.take_append_drop 2324 (s.drop 24)] at hb
    rcases List.mem_append.mp hb with hb | hb
    · exact hzeros b hb
    · exact hedc b (hdropdrop ▸ hb)
  have hEDC_of : (∀ b ∈ s.drop 24, b = 0) → ∀ b ∈ s.drop 2348, b = 0 := by
    intro hM2 b hb
    rw [← hdropdrop] at hb
    exact hM2 b (List.drop_subset _ _ hb)
  by_cases d1 : MatchType1 s
  · have hc : classifyPostgap s = 1 := by unfold classifyPostgap; rw [if_pos d1]
    refine ⟨⟨fun _ => ⟨d1.2.1, d1.2.2⟩, fun _ => hc⟩, ?_, ?_, ?_⟩
    · constructor
      · intro h2; omega
      · intro hr; exact absurd d1.2.2 (hsub32 hr.2.1)
    · constructor
      · intro h3; omega
      · intro hr; exact absurd d1.2.2 (hsub32 hr.2.1)
    · constructor
      · intro hdump
        unfold lastSectorDump at hdump
        rw [if_neg (by omega)] at hdump
        cases hdump
      · intro h0; omega
  · by_cases d2 : MatchType2 s
    · have hc : classifyPostgap s = 2 := by
        unfold classifyPostgap; rw [if_neg d1, if_pos d2]
      refine ⟨?_, ⟨fun _ => ⟨d2.2.1, d2.2.2.1, d2.2.2.2⟩, fun _ => hc⟩, ?_, ?_⟩
      · constructor
        · intro h1; omega
        · intro hr; exact absurd ⟨h, hr.1, hr.2⟩ d1
      · constructor
        · intro h3; omega
        · intro hr
          exact absurd (hEDC_of d2.2.2.2) hr.2.2.2
      · constructor
        · intro hdump
          unfold lastSectorDump at hdump
          rw [if_neg (by omega)] at hdump
          cases hdump
        · intro h0; omega
    · by_cases d3 : MatchType3 s
      · have hc : classifyPostgap s = 3 := by
          unfold classifyPostgap; rw [if_neg d1, if_neg d2, if_pos d3]
        refine ⟨?_, ?_, ?_, ?_⟩
        · constructor
          · intro h1; omega
          · intro hr; exact absurd ⟨h, hr.1, hr.2⟩ d1
        · constructor
          · intro h2; omega
          · intro hr; exact absurd ⟨h, hr.1, hr.2.1, hr.2.2⟩ d2
        · constructor
          · intro _
            refine ⟨d3.2.1, d3.2.2.1, d3.2.2.2, ?_⟩
            intro hedc
            exact absurd ⟨h, d3.2.1, d3.2.2.1, hM2_of d3.2.2.2 hedc⟩ d2
          · intro _; exact hc
        · constructor
          · intro hdump
            unfold lastSectorDump at hdump
            rw [if_neg (by omega)] at hdump
            cases hdump
          · intro h0; omega
      · have hc : classifyPostgap s = 0 := by
          unfold classifyPostgap; rw [if_neg d1, if_neg d2, if_neg d3]
        refine ⟨?_, ?_, ?_, ?_⟩
        · constructor
          · intro h1; omega
          · intro hr; exact absurd ⟨h, hr.1, hr.2⟩ d1
        · constructor
          · intro h2; omega
          · intro hr; exact absurd ⟨h, hr.1, hr.2.1, hr.2.2⟩ d2
        · constructor
          · intro h3; omega
          · intro hr; exact absurd ⟨h, hr.1, hr.2.1, hr.2.2.1⟩ d3
        · constructor
          · intro _; exact hc
          · intro _
            unfold lastSectorDump
            rw [if_pos hc]

theorem postgap_classification_spec_witness :
    classifyPostgap (syncPattern ++ [0, 0, 0, 0] ++ form2Subheader ++
        List.replicate 2328 0) = 2 := by
  have hA : (syncPattern ++ [0, 0, 0, 0] ++ form2Subheader).length = 24 := by decide
  have hdrop : (syncPattern ++ [0, 0, 0, 0] ++ form2Subheader ++
      List.replicate 2328 0).drop 24 = List.replicate 2328 0 := by
    rw [← hA]
    exact List.drop_left _ _
  have hlen : (syncPattern ++ [0, 0, 0, 0] ++ form2Subheader ++
      List.replicate 2328 0).length = 2352 := by
    rw [List.length_append, List.length_replicate, hA]
  exact ((postgap_classification_spec _ hlen).2.1).mpr
    ⟨by decide, by decide, by rw [hdrop]; intro b hb; exact List.eq_of_mem_replicate hb⟩

end Psx
